import Mathlib

/-!
Shallow embedding of the TextArena/clemcore integration orchestrator
(ta_integration: ta_master.py, clem_observation_wrapper.py, submasters.py,
master.py) and proofs of the specification claims about it.

The environment (the textarena package) is external to the repository; it is
consumed only through `reset / observe / step / close`.  It is modelled here as
an abstract transition function (`EnvDyn`) over an `EnvState` that carries the
fields the orchestrator actually reads: `current_player_id`, the per-player
`observations` lists and the `role_mapping`.
-/

set_option linter.unusedVariables false

/-- Observation kinds.  The source only ever branches on
`ObservationType.PLAYER_ACTION` (clem_observation_wrapper.py line 33); the other
kinds are opaque to the orchestrator. -/
inductive ObservationType where
  | PLAYER_ACTION
  | NARRATION
  | SYSTEM
deriving DecidableEq

/-- One entry of a per-player observation list: the tuple
`(sender_id, message, observation_type)` used by the wrapper and the master. -/
structure ObsEvent where
  sender_id : Int
  message : String
  kind : ObservationType
deriving DecidableEq

/-- The part of `env.state` that the orchestrator reads:
`current_player_id`, `observations[player_id]` and `role_mapping`. -/
structure EnvState where
  current_player_id : Int
  observations : Int → List ObsEvent
  role_mapping : Int → Option String

/-- The per-player `invalid_move` / `reason` entries of the details dict
returned by `env.close()` (`rewards[1][player_id]`). -/
structure RewardDetails where
  invalid_move : Bool
  reason : String
deriving DecidableEq

/-- The reward structure returned by `env.close()`: `numeric` models
`rewards[0]` (player id → numeric reward) and `details` models `rewards[1]`. -/
structure Rewards where
  numeric : Int → Rat
  details : Int → RewardDetails

/-- Abstract dynamics of the external textarena environment: `stepFn` models
`env.step(action)` returning the mutated state and the `done` flag (the `info`
payload is only logged by the orchestrator and is omitted); `closeFn` models
`env.close()`. -/
structure EnvDyn where
  stepFn : EnvState → String → EnvState × Bool
  closeFn : EnvState → Rewards

/-- The constant game prompt imported from `textarena.agents.basic_agents`.
Its exact text is external to this repository; no theorem depends on it. -/
def STANDARD_GAME_PROMPT : String :=
  "You are a competitive game player. Make sure you read the game instructions carefully, and always follow the required format."

/-- State of `ClemObservationWrapper`: the per-player delivered-observation
cursor `self.logged_observation_count`. -/
structure ClemObservationWrapperState where
  logged_observation_count : Int → Nat

/-- Source `ClemObservationWrapper.__init__`: every player's cursor starts at 0. -/
def ClemObservationWrapper.init : ClemObservationWrapperState :=
  ⟨fun _ => 0⟩

/-- Role-name lookup in `_convert_obs_to_context`:
`self.env.state.role_mapping.get(sender_id, f"Player {sender_id}")`. -/
def senderName (env : EnvState) (sender_id : Int) : String :=
  match env.role_mapping sender_id with
  | some name => name
  | none => "Player " ++ toString sender_id

/-- The body of the rendering loop of `_convert_obs_to_context` (lines 29-42):
a non-PLAYER_ACTION observation is always rendered, a PLAYER_ACTION observation
is skipped when it is the observing player's own action and rendered otherwise. -/
def renderObservation (env : EnvState) (player_id : Int) (acc : String)
    (e : ObsEvent) : String :=
  if ¬ (e.kind = ObservationType.PLAYER_ACTION) then
    acc ++ "[" ++ senderName env e.sender_id ++ "] " ++ e.message ++ "\n"
  else if e.sender_id = player_id then
    acc
  else
    acc ++ "[" ++ senderName env e.sender_id ++ "] " ++ e.message ++ "\n"

/-- Source `ClemObservationWrapper._convert_obs_to_context(player_id)`: prepends the
standard game prompt when the player's cursor is 0, takes the slice of that
player's observations past the cursor, advances the cursor by the slice length,
and renders the slice.  Returns the new wrapper state and the produced
`content` string (the returned dict is `{'role': 'user', 'content': content}`;
the constant role field is omitted). -/
def ClemObservationWrapper._convert_obs_to_context (env : EnvState)
    (w : ClemObservationWrapperState) (player_id : Int) :
    ClemObservationWrapperState × String :=
  let content :=
    if w.logged_observation_count player_id = 0 then STANDARD_GAME_PROMPT ++ "\n\n" else ""
  let observations :=
    (env.observations player_id).drop (w.logged_observation_count player_id)
  let w' : ClemObservationWrapperState :=
    ⟨fun i => if i = player_id then
        w.logged_observation_count player_id + observations.length
      else w.logged_observation_count i⟩
  (w', observations.foldl (renderObservation env player_id) content)

/-- State of `TextArenaGameMaster` (the fields `__init__` sets up, plus
counters for the externally-logged quantities: `violation_count` models
clemcore's `count_request_violation` tally, `round_count` models the round
counter advanced by `log_next_round`, `close_count` counts invocations of
`env.close()`, and `logged_keys` models the numeric values stored by
`log_key`). -/
structure MasterState where
  request_violation : Bool
  played_in_round : Finset Int
  last_player : Option Int
  done : Bool
  started : Bool
  players_by_id : Finset Int
  checked_observations : Int → Nat
  violation_count : Nat
  round_count : Nat
  close_count : Nat
  logged_keys : String → Option Rat

/-- The numeric key/value log written by `log_key`. -/
abbrev LogMap := String → Option Rat

/-- Source `log_key(key, value)` on the numeric key/value log. -/
def logSet (key : String) (value : Rat) (logs : LogMap) : LogMap :=
  fun s => if s = key then some value else logs s

/-- Source `TextArenaGameMaster.__init__`: `players_by_id` starts as `{-1: "GM"}`,
all flags cleared, the acted-set empty. -/
def initialMasterState : MasterState where
  request_violation := false
  played_in_round := ∅
  last_player := none
  done := false
  started := false
  players_by_id := {-1}
  checked_observations := fun _ => 0
  violation_count := 0
  round_count := 0
  close_count := 0
  logged_keys := fun _ => none

/-- Source `TextArenaGameMaster.add_player`: registers the player id in
`players_by_id` and initialises `checked_observations[player_id] = 0`. -/
def TextArenaGameMaster.add_player (player_id : Int) (m : MasterState) :
    MasterState :=
  { m with
    players_by_id := insert player_id m.players_by_id
    checked_observations := fun i =>
      if i = player_id then 0 else m.checked_observations i }

/-- The marker substring searched for by `_check_move_validity`. -/
def violationMarker : String := "attempted an invalid move"

/-- Python's `"attempted an invalid move" in message`. -/
def containsViolationMarker (message : String) : Bool :=
  decide (violationMarker.data <:+: message.data)

/-- Source `TextArenaGameMaster._check_move_validity`: slices the current player's
observations past `checked_observations[player_id]`, advances that cursor to
the full length, and reports (incrementing the clemcore violation tally)
whether any new observation's message contains the marker substring. -/
def TextArenaGameMaster._check_move_validity (env : EnvState) (m : MasterState) :
    Bool × MasterState :=
  let player_id := env.current_player_id
  let checked := m.checked_observations player_id
  let last_observations := (env.observations player_id).drop checked
  let m1 : MasterState :=
    { m with checked_observations := fun i =>
        if i = player_id then (env.observations player_id).length
        else m.checked_observations i }
  if last_observations.any (fun o => containsViolationMarker o.message) then
    (true, { m1 with violation_count := m1.violation_count + 1 })
  else
    (false, m1)

/-- Source `TextArenaGameMaster._start_next_round`: all players have played in the
current round (`len(played_in_round) == len(players_by_id) - 1`; recall
`players_by_id` holds the GM pseudo-entry `-1` besides the players) and no
request violation occurred. -/
def TextArenaGameMaster._start_next_round (m : MasterState) : Bool :=
  decide (m.played_in_round.card = m.players_by_id.card - 1) && !m.request_violation

/-- Source `TextArenaGameMaster._prepare_next_round`: clears the acted-set and
advances the round counter (`log_next_round`). -/
def TextArenaGameMaster._prepare_next_round (m : MasterState) : MasterState :=
  { m with played_in_round := ∅, round_count := m.round_count + 1 }

/-- Source `TextArenaGameMaster._after_game`: calls `env.close()` (counted in
`close_count`), reads the last player's `invalid_move` detail and counts a
request violation when it is set, then hands the rewards to the
`_on_after_game` hook, which (in every subclass in the repository) only writes
`log_key` entries.  When `last_player` is still `None` the Python code crashes
on `rewards[1][None]`, modelled by `none`.  The `log_event`/`ta_reward`
recorder writes go to the external logger and are not modelled. -/
def TextArenaGameMaster._after_game (dyn : EnvDyn)
    (on_after_game : EnvState → Rewards → LogMap → LogMap)
    (env : EnvState) (m : MasterState) : Option MasterState :=
  match m.last_player with
  | none => none
  | some last_player =>
    let rewards := dyn.closeFn env
    let m1 := { m with close_count := m.close_count + 1 }
    let last_move_invalid := (rewards.details last_player).invalid_move
    let m2 :=
      if last_move_invalid then
        { m1 with violation_count := m1.violation_count + 1 }
      else m1
    some { m2 with logged_keys := on_after_game env rewards m2.logged_keys }

/-- Source `TextArenaGameMaster.step(response)`: resets the violation flag, steps the
environment, recomputes the flag via `_check_move_validity`, stores `done`,
and either performs the round bookkeeping (when `done` is false) or runs
`_after_game`.  Returns the new environment state, the new master state
(`none` on the `rewards[1][None]` crash) and `done`. -/
def TextArenaGameMaster.step (dyn : EnvDyn)
    (on_after_game : EnvState → Rewards → LogMap → LogMap)
    (env : EnvState) (m : MasterState) (response : String) :
    EnvState × Option MasterState × Bool :=
  let m0 := { m with request_violation := false }
  let sr := dyn.stepFn env response
  let env' := sr.1
  let done := sr.2
  let cv := TextArenaGameMaster._check_move_validity env' m0
  let m1 := { cv.2 with request_violation := cv.1, done := done }
  if done = false then
    let m2 :=
      if TextArenaGameMaster._start_next_round m1 then
        TextArenaGameMaster._prepare_next_round m1
      else m1
    (env', some m2, done)
  else
    (env', TextArenaGameMaster._after_game dyn on_after_game env' m1, done)

/-- Source `TextArenaPlayer.perceive_context`: at the moment a player receives its
context it is added to `played_in_round` and recorded as `last_player`. -/
def TextArenaPlayer.perceive_context (ta_id : Int) (m : MasterState) :
    MasterState :=
  { m with played_in_round := insert ta_id m.played_in_round
           last_player := some ta_id }

/-- One iteration of `TextArenaGameMaster.play`: observe the current player
(`observe` routes through the wrapper's `_convert_obs_to_context`), invoke the
player (clemcore's `player(context)` calls `perceive_context` before the
response is generated), then `step` the response. -/
def TextArenaGameMaster.playStep (dyn : EnvDyn)
    (on_after_game : EnvState → Rewards → LogMap → LogMap)
    (agents : Int → String → String)
    (env : EnvState) (w : ClemObservationWrapperState) (m : MasterState) :
    EnvState × ClemObservationWrapperState × Option MasterState × Bool :=
  let pid := env.current_player_id
  let oc := ClemObservationWrapper._convert_obs_to_context env w pid
  let m1 := TextArenaPlayer.perceive_context pid m
  let response := agents pid oc.2
  let st := TextArenaGameMaster.step dyn on_after_game env m1 response
  (st.1, oc.1, st.2.1, st.2.2)

/-- Source `TextArenaGameMaster.play`: `while not done` loop, with explicit fuel (the
source loops until the environment reports `done`; a run that does not
terminate within the fuel yields `none`, as does the `_after_game` crash). -/
def TextArenaGameMaster.play (dyn : EnvDyn)
    (on_after_game : EnvState → Rewards → LogMap → LogMap)
    (agents : Int → String → String) :
    Nat → EnvState → ClemObservationWrapperState → MasterState →
    Option (EnvState × ClemObservationWrapperState × MasterState)
  | 0, _, _, _ => none
  | Nat.succ fuel, env, w, m =>
    match TextArenaGameMaster.playStep dyn on_after_game agents env w m with
    | (_, _, none, _) => none
    | (env', w', some m', done) =>
      if done then some (env', w', m')
      else TextArenaGameMaster.play dyn on_after_game agents fuel env' w' m'

/-- Source `submasters.reward_for_player`: extracts `rewards[0][player_id]` (the
membership asserts always hold in this total-function model). -/
def reward_for_player (rewards : Rewards) (player_id : Int) : Rat :=
  rewards.numeric player_id

/-- clemcore's metric key `METRIC_ABORTED` (external constant). -/
def METRIC_ABORTED : String := "Aborted"

/-- clemcore's metric key `METRIC_SUCCESS` (external constant). -/
def METRIC_SUCCESS : String := "Success"

/-- clemcore's metric key `METRIC_LOSE` (external constant). -/
def METRIC_LOSE : String := "Lose"

/-- The metric dict `{METRIC_ABORTED, METRIC_SUCCESS, METRIC_LOSE}`. -/
structure Metrics where
  aborted : Rat
  success : Rat
  lose : Rat
deriving DecidableEq

/-- Source `TextArenaGameMaster.prepare_metrics`: all metrics default to 0. -/
def TextArenaGameMaster.prepare_metrics : Metrics := ⟨0, 0, 0⟩

/-- Source `SinglePlayerMaster.prepare_metrics(numeric_reward)`: Python truthiness of
`if numeric_reward:` (false for `None` and `0`), then the `== -1` / `== 1`
branches. -/
def SinglePlayerMaster.prepare_metrics (numeric_reward : Option Rat) : Metrics :=
  let metrics := TextArenaGameMaster.prepare_metrics
  match numeric_reward with
  | none => metrics
  | some r =>
    if r ≠ 0 then
      if r = -1 then { metrics with aborted := 1, lose := 1 }
      else if r = 1 then { metrics with success := 1 }
      else metrics
    else metrics

/-- Source `SinglePlayerMaster._on_after_game`: logs `numeric_reward` for player 0 and
the three metric keys produced by `prepare_metrics` (dict iteration order:
aborted, success, lose). -/
def SinglePlayerMaster._on_after_game (env : EnvState) (rewards : Rewards)
    (logs : LogMap) : LogMap :=
  let numeric_reward := reward_for_player rewards 0
  let logs1 := logSet "numeric_reward" numeric_reward logs
  let metrics := SinglePlayerMaster.prepare_metrics (some numeric_reward)
  let logs2 := logSet METRIC_ABORTED metrics.aborted logs1
  let logs3 := logSet METRIC_SUCCESS metrics.success logs2
  logSet METRIC_LOSE metrics.lose logs3

/-- The fields of a clemcore `GameSpec` read by `TextArenaBenchmark.__init__`:
the player count and the optional explicit `master` / `scorer` names. -/
structure GameSpecModel where
  players : Nat
  master : Option String
  scorer : Option String

/-- The master-selection block of `TextArenaBenchmark.__init__` (master.py
lines 24-32): an explicit `master` wins; otherwise 1 player selects
`SinglePlayerMaster`, 2 players `TwoPlayerMaster`, and any other count raises
`ValueError`. -/
def TextArenaBenchmark.chooseMaster (gs : GameSpecModel) : Except String String :=
  match gs.master with
  | some master => Except.ok master
  | none =>
    if gs.players = 1 then Except.ok "SinglePlayerMaster"
    else if gs.players = 2 then Except.ok "TwoPlayerMaster"
    else Except.error "Multi-player games require a specified master in the game spec."

/-- The scorer-selection block of `TextArenaBenchmark.__init__` (master.py
lines 33-41), symmetric to the master selection. -/
def TextArenaBenchmark.chooseScorer (gs : GameSpecModel) : Except String String :=
  match gs.scorer with
  | some scorer => Except.ok scorer
  | none =>
    if gs.players = 1 then Except.ok "SinglePlayerScorer"
    else if gs.players = 2 then Except.ok "TwoPlayerScorer"
    else Except.error "Multi-player games require a specified scorer in the game spec."

/-- Source `TextArenaBenchmark.__init__`: runs the master block then the scorer block;
a raised `ValueError` aborts construction (construction happens before
`setup`, hence before any environment `reset`). -/
def TextArenaBenchmark.construct (gs : GameSpecModel) :
    Except String (String × String) :=
  match TextArenaBenchmark.chooseMaster gs with
  | Except.error e => Except.error e
  | Except.ok master =>
    match TextArenaBenchmark.chooseScorer gs with
    | Except.error e => Except.error e
    | Except.ok scorer => Except.ok (master, scorer)

/-- Error kind of the environment-adapter boundary (spec section 7). -/
inductive CloseErr where
  | ProtocolViolation
deriving DecidableEq

/-- Closed-flag state of the environment-adapter boundary. -/
structure EnvAdapterState where
  closed : Bool
deriving DecidableEq

/-- Modelled from the spec: the `close()` side of the environment adapter
boundary.  The underlying `env.close()` lives in the external textarena
package (not part of this repository); per spec sections 4.4 and 7 it is
callable exactly once per session, and a second call fails with
`ProtocolViolation` instead of silently returning a stale Outcome Record. -/
def adapterClose (dyn : EnvDyn) (env : EnvState) (a : EnvAdapterState) :
    Except CloseErr (EnvAdapterState × Rewards) :=
  if a.closed then Except.error CloseErr.ProtocolViolation
  else Except.ok (⟨true⟩, dyn.closeFn env)

/-- A step of an observation-delivery history for one player: the (external,
append-only) environment appends events to that player's observation list, or
the orchestrator calls `observation_for` on the wrapper. -/
inductive ObsTraceOp where
  | append (es : List ObsEvent)
  | observe

/-- The environment appending events to one player's observation list (the
observation lists are append-only: spec section 3, Event Log). -/
def appendEvents (pid : Int) (es : List ObsEvent) (env : EnvState) : EnvState :=
  { env with observations := fun i =>
      if i = pid then env.observations i ++ es else env.observations i }

/-- Runs an observation-delivery history for player `pid`, accumulating the
slice delivered by each `observe` call (the slice of
`env.state.observations[pid]` past the wrapper cursor, exactly what
`_convert_obs_to_context` consumes and renders). -/
def runObsTrace (pid : Int) :
    List ObsTraceOp → EnvState → ClemObservationWrapperState →
    List (List ObsEvent) →
    EnvState × ClemObservationWrapperState × List (List ObsEvent)
  | [], env, w, d => (env, w, d)
  | ObsTraceOp.append es :: ops, env, w, d =>
    runObsTrace pid ops (appendEvents pid es env) w d
  | ObsTraceOp.observe :: ops, env, w, d =>
    let slice := (env.observations pid).drop (w.logged_observation_count pid)
    let oc := ClemObservationWrapper._convert_obs_to_context env w pid
    runObsTrace pid ops env oc.1 (d ++ [slice])

/-- Follows the spec's words (section 4.2): role names resolve through the
session-wide id-to-name mapping, falling back to `"Player <id>"`. -/
def specRoleName (env : EnvState) (sender_id : Int) : String :=
  match env.role_mapping sender_id with
  | some name => name
  | none => "Player " ++ toString sender_id

/-- Follows the spec's words (section 4.2): each delivered event is rendered as
the line `[<role-name-or-id>] <message>`. -/
def specRenderEvent (env : EnvState) (e : ObsEvent) : String :=
  "[" ++ specRoleName env e.sender_id ++ "] " ++ e.message ++ "\n"

/-- Follows the spec's words (section 4.2): an agent's own prior action is not
delivered back to itself; everything else is visible. -/
def specVisible (player_id : Int) (e : ObsEvent) : Bool :=
  !(decide (e.kind = ObservationType.PLAYER_ACTION) && decide (e.sender_id = player_id))

/-- Spec-side rendering of a delivered slice: the visible events, each rendered
as its line, concatenated in order. -/
def specRenderedContent (env : EnvState) (player_id : Int)
    (l : List ObsEvent) : String :=
  ((l.filter (specVisible player_id)).map (specRenderEvent env)).foldr
    (fun a b => a ++ b) ""

lemma string_append_assoc (a b c : String) : a ++ b ++ c = a ++ (b ++ c) := by
  apply String.ext
  simp [String.data_append, List.append_assoc]

lemma string_append_empty (a : String) : a ++ "" = a := by
  apply String.ext
  rw [String.data_append]
  show a.data ++ [] = a.data
  exact List.append_nil a.data


lemma string_empty_append (a : String) : "" ++ a = a := by
  apply String.ext
  rw [String.data_append]
  show [] ++ a.data = a.data
  exact List.nil_append a.data

lemma specRenderedContent_cons (env : EnvState) (pid : Int) (e : ObsEvent)
    (es : List ObsEvent) :
    specRenderedContent env pid (e :: es) =
      (if specVisible pid e then specRenderEvent env e else "") ++
        specRenderedContent env pid es := by
  unfold specRenderedContent
  rw [List.filter_cons]
  by_cases h : specVisible pid e
  · rw [if_pos h, if_pos h]
    rw [List.map_cons, List.foldr_cons]
  · rw [if_neg h, if_neg h]
    rw [string_empty_append]

lemma render_eq_specRenderEvent (env : EnvState) (pid : Int) (acc : String)
    (e : ObsEvent) (h : specVisible pid e = true) :
    renderObservation env pid acc e = acc ++ specRenderEvent env e := by
  have hname : senderName env e.sender_id = specRoleName env e.sender_id := rfl
  by_cases hk : e.kind = ObservationType.PLAYER_ACTION
  · have hs : ¬ e.sender_id = pid := by
      intro hs
      simp [specVisible, hk, hs] at h
    rw [renderObservation, if_neg (by simp [hk]), if_neg hs]
    show acc ++ "[" ++ senderName env e.sender_id ++ "] " ++ e.message ++ "\n" =
      acc ++ ("[" ++ specRoleName env e.sender_id ++ "] " ++ e.message ++ "\n")
    rw [← hname]
    apply String.ext
    simp [String.data_append, List.append_assoc]
  · rw [renderObservation, if_pos (by simp [hk])]
    show acc ++ "[" ++ senderName env e.sender_id ++ "] " ++ e.message ++ "\n" =
      acc ++ ("[" ++ specRoleName env e.sender_id ++ "] " ++ e.message ++ "\n")
    rw [← hname]
    apply String.ext
    simp [String.data_append, List.append_assoc]

lemma render_eq_self (env : EnvState) (pid : Int) (acc : String)
    (e : ObsEvent) (h : specVisible pid e = false) :
    renderObservation env pid acc e = acc := by
  have hk : e.kind = ObservationType.PLAYER_ACTION := by
    by_contra hk
    simp [specVisible, hk] at h
  have hs : e.sender_id = pid := by
    by_contra hs
    simp [specVisible, hk, hs] at h
  rw [renderObservation, if_neg (by simp [hk]), if_pos hs]

lemma foldl_renderObservation (env : EnvState) (pid : Int) :
    ∀ (l : List ObsEvent) (acc : String),
      l.foldl (renderObservation env pid) acc =
        acc ++ specRenderedContent env pid l := by
  intro l
  induction l with
  | nil =>
    intro acc
    show acc = acc ++ specRenderedContent env pid []
    rw [specRenderedContent]
    simp only [List.filter_nil, List.map_nil, List.foldr_nil]
    rw [string_append_empty]
  | cons e es ih =>
    intro acc
    rw [List.foldl_cons, ih, specRenderedContent_cons]
    by_cases hv : specVisible pid e
    · rw [render_eq_specRenderEvent env pid acc e hv, if_pos hv,
        string_append_assoc]
    · rw [render_eq_self env pid acc e (by simpa using hv), if_neg hv,
        string_empty_append]

lemma check_move_validity_spec (env : EnvState) (m : MasterState) :
    (TextArenaGameMaster._check_move_validity env m).2.request_violation = m.request_violation ∧
    (TextArenaGameMaster._check_move_validity env m).2.played_in_round = m.played_in_round ∧
    (TextArenaGameMaster._check_move_validity env m).2.last_player = m.last_player ∧
    (TextArenaGameMaster._check_move_validity env m).2.done = m.done ∧
    (TextArenaGameMaster._check_move_validity env m).2.started = m.started ∧
    (TextArenaGameMaster._check_move_validity env m).2.players_by_id = m.players_by_id ∧
    (TextArenaGameMaster._check_move_validity env m).2.round_count = m.round_count ∧
    (TextArenaGameMaster._check_move_validity env m).2.close_count = m.close_count ∧
    (TextArenaGameMaster._check_move_validity env m).2.logged_keys = m.logged_keys ∧
    m.violation_count ≤ (TextArenaGameMaster._check_move_validity env m).2.violation_count ∧
    ((TextArenaGameMaster._check_move_validity env m).1 = true →
      (TextArenaGameMaster._check_move_validity env m).2.violation_count = m.violation_count + 1) ∧
    ((TextArenaGameMaster._check_move_validity env m).1 = false →
      (TextArenaGameMaster._check_move_validity env m).2.violation_count = m.violation_count) ∧
    ((TextArenaGameMaster._check_move_validity env m).1 = true ↔
      ∃ e ∈ (env.observations env.current_player_id).drop
          (m.checked_observations env.current_player_id),
        violationMarker.data <:+: e.message.data) := by
  unfold TextArenaGameMaster._check_move_validity
  by_cases h :
      ((env.observations env.current_player_id).drop
          (m.checked_observations env.current_player_id)).any
        (fun o => containsViolationMarker o.message) = true
  · rw [if_pos h]
    refine ⟨rfl, rfl, rfl, rfl, rfl, rfl, rfl, rfl, rfl, Nat.le_succ _,
      fun _ => rfl, fun hf => by simp at hf, ?_⟩
    constructor
    · intro _
      rw [List.any_eq_true] at h
      obtain ⟨o, ho, hmark⟩ := h
      simp only [containsViolationMarker, decide_eq_true_eq] at hmark
      exact ⟨o, ho, hmark⟩
    · intro _
      rfl
  · rw [if_neg h]
    have h2 := h
    rw [Bool.not_eq_true, List.any_eq_false] at h2
    refine ⟨rfl, rfl, rfl, rfl, rfl, rfl, rfl, rfl, rfl, Nat.le_refl _,
      fun ht => by simp at ht, fun _ => rfl, ?_⟩
    constructor
    · intro ht
      exact absurd ht (by simp)
    · rintro ⟨o, ho, hmark⟩
      have hfo := h2 o ho
      simp only [containsViolationMarker, decide_eq_true_eq] at hfo
      exact absurd hmark hfo

lemma after_game_spec (dyn : EnvDyn)
    (hook : EnvState → Rewards → LogMap → LogMap)
    (env : EnvState) (m : MasterState) (lp : Int)
    (hlp : m.last_player = some lp) :
    ∃ m', TextArenaGameMaster._after_game dyn hook env m = some m' ∧
      m'.request_violation = m.request_violation ∧
      m'.played_in_round = m.played_in_round ∧
      m'.last_player = m.last_player ∧
      m'.done = m.done ∧
      m'.started = m.started ∧
      m'.players_by_id = m.players_by_id ∧
      m'.checked_observations = m.checked_observations ∧
      m'.round_count = m.round_count ∧
      m'.close_count = m.close_count + 1 ∧
      m'.logged_keys = hook env (dyn.closeFn env) m.logged_keys ∧
      m.violation_count ≤ m'.violation_count ∧
      (((dyn.closeFn env).details lp).invalid_move = true →
        m'.violation_count = m.violation_count + 1) := by
  unfold TextArenaGameMaster._after_game
  simp only [hlp]
  by_cases hi : ((dyn.closeFn env).details lp).invalid_move = true
  · rw [if_pos hi]
    exact ⟨_, rfl, rfl, rfl, rfl, rfl, rfl, rfl, rfl, rfl, rfl, rfl,
      Nat.le_succ _, fun _ => rfl⟩
  · rw [if_neg hi]
    exact ⟨_, rfl, rfl, rfl, rfl, rfl, rfl, rfl, rfl, rfl, rfl, rfl,
      Nat.le_refl _, fun ht => by rw [ht] at hi; exact absurd rfl hi⟩

/-- Helper: the master state after `_check_move_validity` and the
`request_violation` / `done` assignments inside `step`, before the round
bookkeeping or `_after_game`. -/
def stepMid (dyn : EnvDyn) (env : EnvState) (m : MasterState)
    (response : String) : MasterState :=
  let env' := (dyn.stepFn env response).1
  let cv := TextArenaGameMaster._check_move_validity env'
    { m with request_violation := false }
  { cv.2 with request_violation := cv.1, done := (dyn.stepFn env response).2 }

lemma step_eq (dyn : EnvDyn) (hook : EnvState → Rewards → LogMap → LogMap)
    (env : EnvState) (m : MasterState) (response : String) :
    TextArenaGameMaster.step dyn hook env m response =
      (if (dyn.stepFn env response).2 = false then
        ((dyn.stepFn env response).1,
         some (if TextArenaGameMaster._start_next_round (stepMid dyn env m response) then
                 TextArenaGameMaster._prepare_next_round (stepMid dyn env m response)
               else stepMid dyn env m response),
         (dyn.stepFn env response).2)
       else
        ((dyn.stepFn env response).1,
         TextArenaGameMaster._after_game dyn hook (dyn.stepFn env response).1
           (stepMid dyn env m response),
         (dyn.stepFn env response).2)) := rfl

lemma stepMid_spec (dyn : EnvDyn) (env : EnvState) (m : MasterState)
    (response : String) :
    (stepMid dyn env m response).played_in_round = m.played_in_round ∧
    (stepMid dyn env m response).last_player = m.last_player ∧
    (stepMid dyn env m response).started = m.started ∧
    (stepMid dyn env m response).players_by_id = m.players_by_id ∧
    (stepMid dyn env m response).round_count = m.round_count ∧
    (stepMid dyn env m response).close_count = m.close_count ∧
    (stepMid dyn env m response).logged_keys = m.logged_keys ∧
    (stepMid dyn env m response).done = (dyn.stepFn env response).2 ∧
    m.violation_count ≤ (stepMid dyn env m response).violation_count ∧
    ((stepMid dyn env m response).request_violation = true →
      (stepMid dyn env m response).violation_count = m.violation_count + 1) ∧
    ((stepMid dyn env m response).request_violation = false →
      (stepMid dyn env m response).violation_count = m.violation_count) ∧
    ((stepMid dyn env m response).request_violation = true ↔
      ∃ e ∈ ((dyn.stepFn env response).1.observations
              (dyn.stepFn env response).1.current_player_id).drop
          (m.checked_observations (dyn.stepFn env response).1.current_player_id),
        violationMarker.data <:+: e.message.data) := by
  have c := check_move_validity_spec (dyn.stepFn env response).1
    { m with request_violation := false }
  obtain ⟨c1, c2, c3, c4, c5, c6, c7, c8, c9, c10, c11, c12, c13⟩ := c
  refine ⟨c2, c3, c5, c6, c7, c8, c9, rfl, c10, ?_, ?_, ?_⟩
  · intro h
    exact c11 h
  · intro h
    exact c12 h
  · exact c13

lemma start_next_round_eq_true (m : MasterState) :
    TextArenaGameMaster._start_next_round m = true ↔
      m.played_in_round.card = m.players_by_id.card - 1 ∧
        m.request_violation = false := by
  rw [TextArenaGameMaster._start_next_round]
  simp [Bool.and_eq_true, Bool.not_eq_true']

/-- C1: for a session in progress, a step whose environment call returns
`done = false` completes the round (the acted-set is cleared and the round
counter advances) iff the acted-set size equals the total number of agents
(`players_by_id` holds the GM pseudo-entry besides the `n` agents) and the
step raised no violation flag; a step that raises the violation flag never
clears the acted-set nor advances the round counter. -/
theorem step_round_completion_iff (dyn : EnvDyn)
    (hook : EnvState → Rewards → LogMap → LogMap)
    (env : EnvState) (m : MasterState) (response : String) (n : Nat)
    (hplayers : m.players_by_id.card = n + 1)
    (hstarted : m.started = true) (hnotdone : m.done = false)
    (env' : EnvState) (m' : MasterState)
    (hstep : TextArenaGameMaster.step dyn hook env m response =
      (env', some m', false)) :
    ((m'.played_in_round = ∅ ∧ m'.round_count = m.round_count + 1) ↔
      (m.played_in_round.card = n ∧ m'.request_violation = false)) ∧
    (m'.request_violation = true →
      m'.played_in_round = m.played_in_round ∧
        m'.round_count = m.round_count) := by
  rw [step_eq] at hstep
  obtain ⟨s1, s2, s3, s4, s5, s6, s7, s8, s9, s10, s11, s12⟩ :=
    stepMid_spec dyn env m response
  by_cases hd : (dyn.stepFn env response).2 = false
  · rw [if_pos hd] at hstep
    have hm' := Option.some.inj (congrArg (fun p => p.2.1) hstep)
    by_cases hs : TextArenaGameMaster._start_next_round
        (stepMid dyn env m response) = true
    · rw [if_pos hs] at hm'
      obtain ⟨hcard, hflag⟩ := (start_next_round_eq_true _).mp hs
      rw [s1, s4, hplayers] at hcard
      have hplayed : m'.played_in_round = ∅ := by
        rw [← hm']
        rfl
      have hround : m'.round_count = m.round_count + 1 := by
        rw [← hm']
        show (stepMid dyn env m response).round_count + 1 = m.round_count + 1
        rw [s5]
      have hflag' : m'.request_violation = false := by
        rw [← hm']
        show (stepMid dyn env m response).request_violation = false
        exact hflag
      constructor
      · constructor
        · intro _
          exact ⟨by simpa using hcard, hflag'⟩
        · intro _
          exact ⟨hplayed, hround⟩
      · intro hv
        rw [hflag'] at hv
        cases hv
    · rw [if_neg hs] at hm'
      have hplayed : m'.played_in_round = m.played_in_round := by
        rw [← hm']
        exact s1
      have hround : m'.round_count = m.round_count := by
        rw [← hm']
        exact s5
      have hflag : m'.request_violation =
          (stepMid dyn env m response).request_violation := by
        rw [← hm']
      constructor
      · constructor
        · rintro ⟨-, habs⟩
          rw [hround] at habs
          exact absurd habs (Nat.ne_of_lt (Nat.lt_succ_self _))
        · rintro ⟨hcard, hnoflag⟩
          exfalso
          apply hs
          rw [start_next_round_eq_true, s1, s4, hplayers]
          refine ⟨by simpa using hcard, ?_⟩
          rw [← hflag]
          exact hnoflag
      · intro _
        exact ⟨hplayed, hround⟩
  · rw [if_neg hd] at hstep
    have hdone := congrArg (fun p => p.2.2) hstep
    simp only at hdone
    rw [Bool.not_eq_false] at hd
    rw [hd] at hdone
    cases hdone

/-- A concrete environment state: player 0 to act, no observations yet. -/
def wEnv0 : EnvState where
  current_player_id := 0
  observations := fun _ => []
  role_mapping := fun _ => none

/-- A concrete reward structure: reward -1 with `invalid_move` set. -/
def wRewards : Rewards where
  numeric := fun _ => -1
  details := fun _ => { invalid_move := true, reason := "invalid move" }

/-- Concrete dynamics: the environment never terminates and never mutates. -/
def wDynFalse : EnvDyn where
  stepFn := fun s _ => (s, false)
  closeFn := fun _ => wRewards

/-- Concrete dynamics: the environment terminates on the first step. -/
def wDynTrue : EnvDyn where
  stepFn := fun s _ => (s, true)
  closeFn := fun _ => wRewards

/-- A hook that logs nothing. -/
def wHook : EnvState → Rewards → LogMap → LogMap := fun _ _ logs => logs

/-- A master with the single player 0 registered. -/
def wMasterA : MasterState := TextArenaGameMaster.add_player 0 initialMasterState

/-- The single-player master after player 0 perceived its context. -/
def wMasterB : MasterState :=
  { wMasterA with played_in_round := {0}, last_player := some 0, started := true }

/-- The master state produced by a concrete non-terminal step from `wMasterB`. -/
def wC1m : MasterState :=
  match (TextArenaGameMaster.step wDynFalse wHook wEnv0 wMasterB "x").2.1 with
  | some x => x
  | none => initialMasterState

/-- Witness for C1: in the concrete one-player session where player 0 has
acted and the step raises no violation, the round completes. -/
theorem step_round_completion_iff_witness :
    wC1m.played_in_round = ∅ ∧ wC1m.round_count = wMasterB.round_count + 1 :=
  (step_round_completion_iff wDynFalse wHook wEnv0 wMasterB "x" 1 (by decide)
    rfl rfl wEnv0 wC1m rfl).1.mpr ⟨by decide, rfl⟩

/-- C2 (amended): after the environment step inside `step`, the newly
appended events of the post-step current player's observation window (the
slice past `checked_observations`) are inspected, and the session's violation
flag is set iff one of those new events' message contains the substring
`"attempted an invalid move"`.  The flag is reset at the start of every step,
so the resulting flag is exactly this condition, independent of the previous
flag value.  The code reads `env.state.current_player_id` after the step
(ta_master.py line 188), so when the environment passes the turn the inspected
window belongs to the next player, not to the acting agent — the original
claim's wording holds only when the current player is unchanged (invalid-move
retries, single-player games); see `step_violation_flag_counterexample`. -/
theorem step_violation_flag_iff (dyn : EnvDyn)
    (hook : EnvState → Rewards → LogMap → LogMap)
    (env : EnvState) (m : MasterState) (response : String)
    (env' : EnvState) (m' : MasterState) (done : Bool)
    (hstep : TextArenaGameMaster.step dyn hook env m response =
      (env', some m', done)) :
    m'.request_violation = true ↔
      ∃ e ∈ (env'.observations env'.current_player_id).drop
          (m.checked_observations env'.current_player_id),
        violationMarker.data <:+: e.message.data := by
  rw [step_eq] at hstep
  obtain ⟨s1, s2, s3, s4, s5, s6, s7, s8, s9, s10, s11, s12⟩ :=
    stepMid_spec dyn env m response
  by_cases hd : (dyn.stepFn env response).2 = false
  · rw [if_pos hd] at hstep
    have henv : (dyn.stepFn env response).1 = env' :=
      congrArg (fun p => p.1) hstep
    have hm' := Option.some.inj (congrArg (fun p => p.2.1) hstep)
    have hflag : m'.request_violation =
        (stepMid dyn env m response).request_violation := by
      by_cases hs : TextArenaGameMaster._start_next_round
          (stepMid dyn env m response) = true
      · rw [if_pos hs] at hm'
        rw [← hm']
        rfl
      · rw [if_neg hs] at hm'
        rw [← hm']
    rw [hflag]
    rw [henv] at s12
    exact s12
  · rw [if_neg hd] at hstep
    have henv : (dyn.stepFn env response).1 = env' :=
      congrArg (fun p => p.1) hstep
    have hm' := congrArg (fun p => p.2.1) hstep
    simp only at hm'
    rcases hlp : (stepMid dyn env m response).last_player with _ | lp
    · rw [TextArenaGameMaster._after_game, hlp] at hm'
      cases hm'
    · obtain ⟨m'', hm'', hf, -, -, -, -, -, -, -, -, -, -, -⟩ :=
        after_game_spec dyn hook (dyn.stepFn env response).1
          (stepMid dyn env m response) lp hlp
      rw [hm''] at hm'
      have hmm : m'' = m' := Option.some.inj hm'
      rw [← hmm, hf]
      rw [henv] at s12
      exact s12

/-- The observation event a concrete environment emits on an invalid move. -/
def wViolEvent : ObsEvent :=
  ⟨-1, "Player 0 attempted an invalid move.", ObservationType.SYSTEM⟩

/-- A concrete environment state holding the invalid-move event for player 0. -/
def wEnvViol : EnvState where
  current_player_id := 0
  observations := fun i => if i = 0 then [wViolEvent] else []
  role_mapping := fun _ => none

/-- Concrete dynamics: every step rejects the move, emitting `wViolEvent`. -/
def wDynViol : EnvDyn where
  stepFn := fun _ _ => (wEnvViol, false)
  closeFn := fun _ => wRewards

/-- The master state produced by a concrete step that hits the marker. -/
def wC2m : MasterState :=
  match (TextArenaGameMaster.step wDynViol wHook wEnv0 wMasterB "bad").2.1 with
  | some x => x
  | none => initialMasterState

/-- Witness for C2 (amended): the concrete invalid-move step sets the
violation flag. -/
theorem step_violation_flag_iff_witness : wC2m.request_violation = true :=
  (step_violation_flag_iff wDynViol wHook wEnv0 wMasterB "bad" wEnvViol wC2m
    false rfl).mpr ⟨wViolEvent, by decide, by decide⟩

/-- A concrete environment state after a turn-passing step: the turn moved to
player 1, whose window holds the marker event, while player 0's is empty. -/
def wEnvSwitch : EnvState where
  current_player_id := 1
  observations := fun i => if i = 1 then [wViolEvent] else []
  role_mapping := fun _ => none

/-- Concrete dynamics: a step passes the turn from player 0 to player 1. -/
def wDynSwitch : EnvDyn where
  stepFn := fun _ _ => (wEnvSwitch, false)
  closeFn := fun _ => wRewards

/-- The master state produced by the concrete turn-passing step. -/
def wC2mSwitch : MasterState :=
  match (TextArenaGameMaster.step wDynSwitch wHook wEnv0 wMasterB "x").2.1 with
  | some x => x
  | none => initialMasterState

/-- C2 counterexample: the claim as stated — the flag is set iff a new event
in the ACTING agent's own post-step window carries the marker — is false.  In
this concrete session player 0 acts (`wEnv0.current_player_id = 0`), the
environment passes the turn to player 1 and puts the marker event in player
1's window only; the code inspects the post-step current player's window
(ta_master.py line 188), so the step sets the violation flag even though the
acting agent's own post-step window holds no new event at all. -/
theorem step_violation_flag_counterexample :
    TextArenaGameMaster.step wDynSwitch wHook wEnv0 wMasterB "x" =
      (wEnvSwitch, some wC2mSwitch, false) ∧
    ¬ (wC2mSwitch.request_violation = true ↔
        ∃ e ∈ (wEnvSwitch.observations wEnv0.current_player_id).drop
            (wMasterB.checked_observations wEnv0.current_player_id),
          violationMarker.data <:+: e.message.data) := by
  constructor
  · rfl
  · decide

lemma convert_cursor_self (env : EnvState) (w : ClemObservationWrapperState)
    (pid : Int) :
    (ClemObservationWrapper._convert_obs_to_context env w pid).1.logged_observation_count pid =
      w.logged_observation_count pid +
        ((env.observations pid).drop (w.logged_observation_count pid)).length := by
  simp [ClemObservationWrapper._convert_obs_to_context]

lemma runObsTrace_append (pid : Int) :
    ∀ (ops1 ops2 : List ObsTraceOp) (env : EnvState)
      (w : ClemObservationWrapperState) (d : List (List ObsEvent)),
      runObsTrace pid (ops1 ++ ops2) env w d =
        runObsTrace pid ops2 (runObsTrace pid ops1 env w d).1
          (runObsTrace pid ops1 env w d).2.1
          (runObsTrace pid ops1 env w d).2.2 := by
  intro ops1
  induction ops1 with
  | nil =>
    intro ops2 env w d
    rfl
  | cons op ops ih =>
    intro ops2 env w d
    cases op with
    | append es =>
      rw [List.cons_append]
      simp only [runObsTrace]
      exact ih ops2 (appendEvents pid es env) w d
    | observe =>
      rw [List.cons_append]
      simp only [runObsTrace]
      exact ih ops2 env
        (ClemObservationWrapper._convert_obs_to_context env w pid).1
        (d ++ [(env.observations pid).drop (w.logged_observation_count pid)])

lemma runObsTrace_invariant (pid : Int) :
    ∀ (ops : List ObsTraceOp) (env : EnvState)
      (w : ClemObservationWrapperState) (d : List (List ObsEvent)),
      w.logged_observation_count pid ≤ (env.observations pid).length →
      d.flatten = (env.observations pid).take (w.logged_observation_count pid) →
      (w.logged_observation_count pid ≤
        (runObsTrace pid ops env w d).2.1.logged_observation_count pid) ∧
      ((runObsTrace pid ops env w d).2.1.logged_observation_count pid ≤
        ((runObsTrace pid ops env w d).1.observations pid).length) ∧
      ((runObsTrace pid ops env w d).2.2.flatten =
        ((runObsTrace pid ops env w d).1.observations pid).take
          ((runObsTrace pid ops env w d).2.1.logged_observation_count pid)) ∧
      (env.observations pid <+: (runObsTrace pid ops env w d).1.observations pid) := by
  intro ops
  induction ops with
  | nil =>
    intro env w d h1 h2
    exact ⟨Nat.le_refl _, h1, h2, List.prefix_refl _⟩
  | cons op ops ih =>
    intro env w d h1 h2
    cases op with
    | append es =>
      simp only [runObsTrace]
      have hobs : (appendEvents pid es env).observations pid =
          env.observations pid ++ es := by
        simp [appendEvents]
      have h1' : w.logged_observation_count pid ≤
          ((appendEvents pid es env).observations pid).length := by
        rw [hobs, List.length_append]
        exact Nat.le_trans h1 (Nat.le_add_right _ _)
      have h2' : d.flatten = ((appendEvents pid es env).observations pid).take
          (w.logged_observation_count pid) := by
        rw [hobs, List.take_append_of_le_length h1]
        exact h2
      obtain ⟨a, b, c, p⟩ := ih (appendEvents pid es env) w d h1' h2'
      refine ⟨a, b, c, List.IsPrefix.trans ?_ p⟩
      rw [hobs]
      exact List.prefix_append _ es
    | observe =>
      simp only [runObsTrace]
      have hcur : (ClemObservationWrapper._convert_obs_to_context env w pid).1.logged_observation_count pid =
          (env.observations pid).length := by
        rw [convert_cursor_self, List.length_drop, Nat.add_sub_cancel' h1]
      have h1' : (ClemObservationWrapper._convert_obs_to_context env w pid).1.logged_observation_count pid ≤
          (env.observations pid).length := Nat.le_of_eq hcur
      have h2' : (d ++ [(env.observations pid).drop (w.logged_observation_count pid)]).flatten =
          (env.observations pid).take
            ((ClemObservationWrapper._convert_obs_to_context env w pid).1.logged_observation_count pid) := by
        rw [List.flatten_append, h2, hcur, List.take_length]
        show List.take (w.logged_observation_count pid) (env.observations pid) ++
            ((env.observations pid).drop (w.logged_observation_count pid) ++ []) =
          env.observations pid
        rw [List.append_nil, List.take_append_drop]
      obtain ⟨a, b, c, p⟩ := ih env
        (ClemObservationWrapper._convert_obs_to_context env w pid).1
        (d ++ [(env.observations pid).drop (w.logged_observation_count pid)])
        h1' h2'
      refine ⟨Nat.le_trans (Nat.le_trans h1 (Nat.le_of_eq hcur.symm)) a, b, c, p⟩

/-- C3: for every agent and every observation-delivery history (environment
appends interleaved with `observation_for` calls through the wrapper), the
agent's cursor is monotonically non-decreasing and never exceeds the length of
that agent's observation log; each call delivers exactly the events appended
since the cursor's last value and advances the cursor to the current log
length; and the concatenation of all delivered slices equals the prefix of the
log up to the cursor (hence no event is ever delivered twice, and after a
final call the concatenation is the whole per-agent log — the subsequence of
the Event Log visible to the agent). -/
theorem observation_cursor_properties (pid : Int) (env : EnvState)
    (ops ops2 : List ObsTraceOp) :
    ((runObsTrace pid ops env ClemObservationWrapper.init []).2.1.logged_observation_count pid ≤
      ((runObsTrace pid ops env ClemObservationWrapper.init []).1.observations pid).length) ∧
    ((runObsTrace pid ops env ClemObservationWrapper.init []).2.1.logged_observation_count pid ≤
      (runObsTrace pid (ops ++ ops2) env ClemObservationWrapper.init []).2.1.logged_observation_count pid) ∧
    ((runObsTrace pid ops env ClemObservationWrapper.init []).2.2.flatten =
      ((runObsTrace pid ops env ClemObservationWrapper.init []).1.observations pid).take
        ((runObsTrace pid ops env ClemObservationWrapper.init []).2.1.logged_observation_count pid)) ∧
    ((runObsTrace pid (ops ++ [ObsTraceOp.observe]) env ClemObservationWrapper.init []).2.1.logged_observation_count pid =
      ((runObsTrace pid ops env ClemObservationWrapper.init []).1.observations pid).length) ∧
    ((runObsTrace pid (ops ++ [ObsTraceOp.observe]) env ClemObservationWrapper.init []).2.2 =
      (runObsTrace pid ops env ClemObservationWrapper.init []).2.2 ++
        [((runObsTrace pid ops env ClemObservationWrapper.init []).1.observations pid).drop
          ((runObsTrace pid ops env ClemObservationWrapper.init []).2.1.logged_observation_count pid)]) := by
  have h0 : (ClemObservationWrapper.init).logged_observation_count pid ≤
      (env.observations pid).length := Nat.zero_le _
  have h0' : (([] : List (List ObsEvent))).flatten =
      (env.observations pid).take
        ((ClemObservationWrapper.init).logged_observation_count pid) := rfl
  obtain ⟨a, b, c, p⟩ := runObsTrace_invariant pid ops env
    ClemObservationWrapper.init [] h0 h0'
  obtain ⟨a2, b2, c2, p2⟩ := runObsTrace_invariant pid ops2
    (runObsTrace pid ops env ClemObservationWrapper.init []).1
    (runObsTrace pid ops env ClemObservationWrapper.init []).2.1
    (runObsTrace pid ops env ClemObservationWrapper.init []).2.2 b c
  refine ⟨b, ?_, c, ?_, ?_⟩
  · rw [runObsTrace_append]
    exact a2
  · rw [runObsTrace_append]
    simp only [runObsTrace]
    rw [convert_cursor_self, List.length_drop, Nat.add_sub_cancel' b]
  · rw [runObsTrace_append]
    simp only [runObsTrace]

lemma convert_content_eq (env : EnvState)
    (w : ClemObservationWrapperState) (pid : Int) :
    (ClemObservationWrapper._convert_obs_to_context env w pid).2 =
      (if w.logged_observation_count pid = 0 then STANDARD_GAME_PROMPT ++ "\n\n" else "") ++
        specRenderedContent env pid
          ((env.observations pid).drop (w.logged_observation_count pid)) := by
  show ((env.observations pid).drop (w.logged_observation_count pid)).foldl
      (renderObservation env pid)
      (if w.logged_observation_count pid = 0 then STANDARD_GAME_PROMPT ++ "\n\n" else "") =
    (if w.logged_observation_count pid = 0 then STANDARD_GAME_PROMPT ++ "\n\n" else "") ++
      specRenderedContent env pid
        ((env.observations pid).drop (w.logged_observation_count pid))
  rw [foldl_renderObservation]

/-- C6: the content delivered by `_convert_obs_to_context` is exactly the
spec-side rendering: the preamble part, followed by the new events with the
observing player's own PLAYER_ACTION events excluded and every remaining event
rendered as the line `[<role-name>] <message>`, the role name resolved through
the id-to-name mapping with fallback `"Player <id>"` (see `specVisible`,
`specRenderEvent`, `specRoleName`). -/
theorem convert_obs_content_rendering (env : EnvState)
    (w : ClemObservationWrapperState) (pid : Int) :
    (ClemObservationWrapper._convert_obs_to_context env w pid).2 =
      (if w.logged_observation_count pid = 0 then STANDARD_GAME_PROMPT ++ "\n\n" else "") ++
        specRenderedContent env pid
          ((env.observations pid).drop (w.logged_observation_count pid)) :=
  convert_content_eq env w pid

/-- C9: the standard instruction preamble is prepended exactly when the
agent's delivered-event count (`logged_observation_count`) is still 0 at call
time — not only on the literal first call; and the count advances by the
length of the delivered slice, so a call that delivers zero events leaves the
count at 0 and every subsequent call up to and including the first delivering
call prepends the preamble again. -/
theorem preamble_iff_zero_delivered (env : EnvState)
    (w : ClemObservationWrapperState) (pid : Int) :
    (w.logged_observation_count pid = 0 →
      (ClemObservationWrapper._convert_obs_to_context env w pid).2 =
        STANDARD_GAME_PROMPT ++ "\n\n" ++
          specRenderedContent env pid
            ((env.observations pid).drop (w.logged_observation_count pid))) ∧
    (w.logged_observation_count pid ≠ 0 →
      (ClemObservationWrapper._convert_obs_to_context env w pid).2 =
        specRenderedContent env pid
          ((env.observations pid).drop (w.logged_observation_count pid))) ∧
    ((ClemObservationWrapper._convert_obs_to_context env w pid).1.logged_observation_count pid =
      w.logged_observation_count pid +
        ((env.observations pid).drop (w.logged_observation_count pid)).length) := by
  refine ⟨?_, ?_, convert_cursor_self env w pid⟩
  · intro h
    rw [convert_content_eq, if_pos h]
  · intro h
    rw [convert_content_eq, if_neg h, string_empty_append]

/-- Witness for C9: with the cursor still at 0, the delivered content starts
with the standard game prompt. -/
theorem preamble_iff_zero_delivered_witness :
    (ClemObservationWrapper._convert_obs_to_context wEnvViol
      ClemObservationWrapper.init 0).2 =
      STANDARD_GAME_PROMPT ++ "\n\n" ++
        specRenderedContent wEnvViol 0
          ((wEnvViol.observations 0).drop
            (ClemObservationWrapper.init.logged_observation_count 0)) :=
  (preamble_iff_zero_delivered wEnvViol ClemObservationWrapper.init 0).1 rfl

lemma round_branch_spec (m1 : MasterState) :
    (if TextArenaGameMaster._start_next_round m1 then
       TextArenaGameMaster._prepare_next_round m1 else m1).close_count = m1.close_count ∧
    (if TextArenaGameMaster._start_next_round m1 then
       TextArenaGameMaster._prepare_next_round m1 else m1).violation_count = m1.violation_count ∧
    (if TextArenaGameMaster._start_next_round m1 then
       TextArenaGameMaster._prepare_next_round m1 else m1).done = m1.done ∧
    (if TextArenaGameMaster._start_next_round m1 then
       TextArenaGameMaster._prepare_next_round m1 else m1).last_player = m1.last_player ∧
    (if TextArenaGameMaster._start_next_round m1 then
       TextArenaGameMaster._prepare_next_round m1 else m1).request_violation = m1.request_violation := by
  by_cases h : TextArenaGameMaster._start_next_round m1 = true
  · rw [if_pos h]
    exact ⟨rfl, rfl, rfl, rfl, rfl⟩
  · rw [if_neg h]
    exact ⟨rfl, rfl, rfl, rfl, rfl⟩

lemma play_final_step (dyn : EnvDyn)
    (hook : EnvState → Rewards → LogMap → LogMap)
    (agents : Int → String → String) :
    ∀ (fuel : Nat) (env : EnvState) (w : ClemObservationWrapperState)
      (m : MasterState) (env' : EnvState) (w' : ClemObservationWrapperState)
      (m' : MasterState),
      TextArenaGameMaster.play dyn hook agents fuel env w m =
        some (env', w', m') →
      m'.done = true ∧
      m'.close_count = m.close_count + 1 ∧
      m.violation_count ≤ m'.violation_count ∧
      ∃ envp mp resp,
        TextArenaGameMaster.step dyn hook envp mp resp = (env', some m', true) ∧
        mp.last_player = some envp.current_player_id ∧
        mp.close_count = m.close_count := by
  intro fuel
  induction fuel with
  | zero =>
    intro env w m env' w' m' h
    cases h
  | succ fuel ih =>
    intro env w m env' w' m' h
    rw [TextArenaGameMaster.play] at h
    rcases hps : TextArenaGameMaster.playStep dyn hook agents env w m with
      ⟨env1, w1, om, d⟩
    rw [hps] at h
    rcases om with _ | m1
    · cases h
    · have hstepKeep : TextArenaGameMaster.step dyn hook env
          (TextArenaPlayer.perceive_context env.current_player_id m)
          (agents env.current_player_id
            (ClemObservationWrapper._convert_obs_to_context env w
              env.current_player_id).2) = (env1, some m1, d) := by
        have h1 := congrArg (fun p => p.1) hps
        have h2 := congrArg (fun p => p.2.2.1) hps
        have h3 := congrArg (fun p => p.2.2.2) hps
        simp only at h1 h2 h3
        rw [← h1, ← h2, ← h3]
        rfl
      rcases d with _ | _
      · -- done = false: the loop recurses
        simp only [if_neg (Bool.false_ne_true)] at h
        obtain ⟨ihd, ihc, ihv, envp, mp, resp, ihs, ihl, ihcc⟩ :=
          ih env1 w1 m1 env' w' m' h
        have hmid : m1.close_count =
            (TextArenaPlayer.perceive_context env.current_player_id m).close_count ∧
            (TextArenaPlayer.perceive_context env.current_player_id m).violation_count ≤
              m1.violation_count := by
          rw [step_eq] at hstepKeep
          by_cases hd2 : (dyn.stepFn env
              (agents env.current_player_id
                (ClemObservationWrapper._convert_obs_to_context env w
                  env.current_player_id).2)).2 = false
          · rw [if_pos hd2] at hstepKeep
            have hm1 := Option.some.inj
              (congrArg (fun p => p.2.1) hstepKeep)
            obtain ⟨r1, r2, r3, r4, r5⟩ := round_branch_spec
              (stepMid dyn env
                (TextArenaPlayer.perceive_context env.current_player_id m)
                (agents env.current_player_id
                  (ClemObservationWrapper._convert_obs_to_context env w
                    env.current_player_id).2))
            obtain ⟨s1, s2, s3, s4, s5, s6, s7, s8, s9, s10, s11, s12⟩ :=
              stepMid_spec dyn env
                (TextArenaPlayer.perceive_context env.current_player_id m)
                (agents env.current_player_id
                  (ClemObservationWrapper._convert_obs_to_context env w
                    env.current_player_id).2)
            constructor
            · rw [← hm1, r1, s6]
            · rw [← hm1, r2]
              exact s9
          · rw [if_neg hd2] at hstepKeep
            have hd3 := congrArg (fun p => p.2.2) hstepKeep
            simp only at hd3
            rw [Bool.not_eq_false] at hd2
            rw [hd2] at hd3
            cases hd3
        refine ⟨ihd, ?_, ?_, envp, mp, resp, ihs, ihl, ?_⟩
        · rw [ihc, hmid.1]
          rfl
        · exact Nat.le_trans hmid.2 ihv
        · rw [ihcc, hmid.1]
          rfl
      · -- done = true: this is the final step
        simp only [if_pos rfl] at h
        have htrip := Option.some.inj h
        have henv1 : env1 = env' := congrArg (fun p => p.1) htrip
        have hm1 : m1 = m' := congrArg (fun p => p.2.2) htrip
        rw [henv1, hm1] at hstepKeep
        have hmid := hstepKeep
        rw [step_eq] at hmid
        by_cases hd2 : (dyn.stepFn env
            (agents env.current_player_id
              (ClemObservationWrapper._convert_obs_to_context env w
                env.current_player_id).2)).2 = false
        · rw [if_pos hd2] at hmid
          have hd3 := congrArg (fun p => p.2.2) hmid
          simp only at hd3
          rw [hd2] at hd3
          cases hd3
        · rw [if_neg hd2] at hmid
          rw [Bool.not_eq_false] at hd2
          have hafter := congrArg (fun p => p.2.1) hmid
          simp only at hafter
          rcases hlp : (stepMid dyn env
              (TextArenaPlayer.perceive_context env.current_player_id m)
              (agents env.current_player_id
                (ClemObservationWrapper._convert_obs_to_context env w
                  env.current_player_id).2)).last_player with _ | lp
          · rw [TextArenaGameMaster._after_game, hlp] at hafter
            cases hafter
          · obtain ⟨m'', hm'', a1, a2, a3, a4, a5, a6, a7, a8, a9, a10, a11, a12⟩ :=
              after_game_spec dyn hook
                (dyn.stepFn env
                  (agents env.current_player_id
                    (ClemObservationWrapper._convert_obs_to_context env w
                      env.current_player_id).2)).1
                (stepMid dyn env
                  (TextArenaPlayer.perceive_context env.current_player_id m)
                  (agents env.current_player_id
                    (ClemObservationWrapper._convert_obs_to_context env w
                      env.current_player_id).2))
                lp hlp
            rw [hm''] at hafter
            have hmm : m'' = m' := Option.some.inj hafter
            obtain ⟨s1, s2, s3, s4, s5, s6, s7, s8, s9, s10, s11, s12⟩ :=
              stepMid_spec dyn env
                (TextArenaPlayer.perceive_context env.current_player_id m)
                (agents env.current_player_id
                  (ClemObservationWrapper._convert_obs_to_context env w
                    env.current_player_id).2)
            refine ⟨?_, ?_, ?_, env,
              TextArenaPlayer.perceive_context env.current_player_id m, _,
              hstepKeep, rfl, rfl⟩
            · rw [← hmm, a4, s8, hd2]
            · rw [← hmm, a9, s6]
              rfl
            · refine Nat.le_trans ?_ (hmm ▸ a11)
              exact s9

/-- C4: over any terminating run of the `play` loop, `env.close()` is invoked
exactly once — at the step that returns `done = true` (the close counter ends
exactly one above its initial value and the session ends `done`); and, on the
spec-modelled adapter boundary (the underlying `env.close` is external
textarena code), a second `close` on an already-closed adapter fails with
`ProtocolViolation` instead of returning a stale Outcome Record, while the
single close of an open adapter succeeds. -/
theorem close_called_exactly_once (dyn : EnvDyn)
    (hook : EnvState → Rewards → LogMap → LogMap)
    (agents : Int → String → String) (fuel : Nat)
    (env env' : EnvState) (w w' : ClemObservationWrapperState)
    (m m' : MasterState) (a : EnvAdapterState)
    (hrun : TextArenaGameMaster.play dyn hook agents fuel env w m =
      some (env', w', m')) :
    m'.close_count = m.close_count + 1 ∧
    m'.done = true ∧
    (a.closed = true →
      adapterClose dyn env' a = Except.error CloseErr.ProtocolViolation) ∧
    (a.closed = false →
      adapterClose dyn env' a = Except.ok (⟨true⟩, dyn.closeFn env')) := by
  obtain ⟨hdone, hclose, -, -⟩ :=
    play_final_step dyn hook agents fuel env w m env' w' m' hrun
  refine ⟨hclose, hdone, ?_, ?_⟩
  · intro hc
    rw [adapterClose, if_pos hc]
  · intro hc
    rw [adapterClose, if_neg (by rw [hc]; exact Bool.false_ne_true)]

/-- A scripted agent used by the concrete witness sessions. -/
def wAgents : Int → String → String := fun _ _ => "x"

/-- A concrete terminating one-player session run with the trivial hook. -/
def wPlay4 : Option (EnvState × ClemObservationWrapperState × MasterState) :=
  TextArenaGameMaster.play wDynTrue wHook wAgents 1 wEnv0
    ClemObservationWrapper.init wMasterA

/-- The final environment state of `wPlay4`. -/
def wC4env : EnvState :=
  match wPlay4 with
  | some r => r.1
  | none => wEnv0

/-- The final wrapper state of `wPlay4`. -/
def wC4w : ClemObservationWrapperState :=
  match wPlay4 with
  | some r => r.2.1
  | none => ClemObservationWrapper.init

/-- The final master state of `wPlay4`. -/
def wC4m : MasterState :=
  match wPlay4 with
  | some r => r.2.2
  | none => initialMasterState

/-- Witness for C4: the concrete session closes exactly once, and a second
adapter close fails with `ProtocolViolation`. -/
theorem close_called_exactly_once_witness :
    wC4m.close_count = wMasterA.close_count + 1 ∧
    adapterClose wDynTrue wC4env ⟨true⟩ =
      Except.error CloseErr.ProtocolViolation :=
  ⟨(close_called_exactly_once wDynTrue wHook wAgents 1 wEnv0 wC4env
      ClemObservationWrapper.init wC4w wMasterA wC4m ⟨true⟩ rfl).1,
   (close_called_exactly_once wDynTrue wHook wAgents 1 wEnv0 wC4env
      ClemObservationWrapper.init wC4w wMasterA wC4m ⟨true⟩ rfl).2.2.1 rfl⟩

/-- C5: when the final step returns `done = true` and the close-time reward
details mark `invalid_move` for the last-acting agent, a request violation is
still recorded (the violation tally strictly increases), even though no round
bookkeeping happens after that step (the acted-set and the round counter are
untouched). -/
theorem final_step_violation_recorded (dyn : EnvDyn)
    (hook : EnvState → Rewards → LogMap → LogMap)
    (env : EnvState) (m : MasterState) (response : String)
    (env' : EnvState) (m' : MasterState) (lp : Int)
    (hlp : m.last_player = some lp)
    (hstep : TextArenaGameMaster.step dyn hook env m response =
      (env', some m', true))
    (hinv : ((dyn.closeFn env').details lp).invalid_move = true) :
    m.violation_count + 1 ≤ m'.violation_count ∧
    m'.played_in_round = m.played_in_round ∧
    m'.round_count = m.round_count := by
  rw [step_eq] at hstep
  obtain ⟨s1, s2, s3, s4, s5, s6, s7, s8, s9, s10, s11, s12⟩ :=
    stepMid_spec dyn env m response
  by_cases hd : (dyn.stepFn env response).2 = false
  · rw [if_pos hd] at hstep
    have hd3 := congrArg (fun p => p.2.2) hstep
    simp only at hd3
    rw [hd] at hd3
    cases hd3
  · rw [if_neg hd] at hstep
    have henv : (dyn.stepFn env response).1 = env' :=
      congrArg (fun p => p.1) hstep
    have hafter := congrArg (fun p => p.2.1) hstep
    simp only at hafter
    have hmlp : (stepMid dyn env m response).last_player = some lp := by
      rw [s2, hlp]
    obtain ⟨m'', hm'', a1, a2, a3, a4, a5, a6, a7, a8, a9, a10, a11, a12⟩ :=
      after_game_spec dyn hook (dyn.stepFn env response).1
        (stepMid dyn env m response) lp hmlp
    rw [hm''] at hafter
    have hmm : m'' = m' := Option.some.inj hafter
    rw [henv] at a12
    refine ⟨?_, ?_, ?_⟩
    · rw [← hmm, a12 hinv]
      exact Nat.succ_le_succ s9
    · rw [← hmm, a2, s1]
    · rw [← hmm, a8, s5]

/-- The master state produced by a concrete terminal step from `wMasterB`
whose close-time details mark the last move invalid. -/
def wC5m : MasterState :=
  match (TextArenaGameMaster.step wDynTrue wHook wEnv0 wMasterB "x").2.1 with
  | some x => x
  | none => initialMasterState

/-- Witness for C5: the concrete terminal invalid-move step records a
violation. -/
theorem final_step_violation_recorded_witness :
    wMasterB.violation_count + 1 ≤ wC5m.violation_count :=
  (final_step_violation_recorded wDynTrue wHook wEnv0 wMasterB "x" wEnv0 wC5m
    0 rfl rfl rfl).1

lemma sp_prepare_metrics_neg_one :
    SinglePlayerMaster.prepare_metrics (some (-1)) =
      { aborted := 1, success := 0, lose := 1 } := by
  decide

lemma sp_hook_logged (env : EnvState) (rewards : Rewards) (logs : LogMap)
    (hr : rewards.numeric 0 = -1) :
    SinglePlayerMaster._on_after_game env rewards logs METRIC_ABORTED = some 1 ∧
    SinglePlayerMaster._on_after_game env rewards logs METRIC_LOSE = some 1 := by
  simp only [SinglePlayerMaster._on_after_game, reward_for_player, hr,
    sp_prepare_metrics_neg_one, logSet]
  constructor
  · simp [METRIC_ABORTED, METRIC_SUCCESS, METRIC_LOSE]
  · simp [METRIC_ABORTED, METRIC_SUCCESS, METRIC_LOSE]

/-- C7: in a single-player session whose episode ends with a violation on the
final move (final numeric reward -1 for player 0 and `invalid_move` set), the
logged outcome marks aborted = 1 and lose = 1, the request-violation count is
at least 1, and `env.close()` is still invoked exactly once. -/
theorem single_player_abort_outcome (dyn : EnvDyn)
    (agents : Int → String → String) (fuel : Nat)
    (env env' : EnvState) (w w' : ClemObservationWrapperState)
    (m m' : MasterState)
    (hrun : TextArenaGameMaster.play dyn SinglePlayerMaster._on_after_game
      agents fuel env w m = some (env', w', m'))
    (hclose0 : m.close_count = 0)
    (hlp : m'.last_player = some 0)
    (hreward : (dyn.closeFn env').numeric 0 = -1)
    (hinv : ((dyn.closeFn env').details 0).invalid_move = true) :
    m'.logged_keys METRIC_ABORTED = some 1 ∧
    m'.logged_keys METRIC_LOSE = some 1 ∧
    1 ≤ m'.violation_count ∧
    m'.close_count = 1 := by
  obtain ⟨hdone, hclose, hviol0, envp, mp, resp, hstep, hlpp, hcc⟩ :=
    play_final_step dyn SinglePlayerMaster._on_after_game agents fuel
      env w m env' w' m' hrun
  rw [step_eq] at hstep
  obtain ⟨s1, s2, s3, s4, s5, s6, s7, s8, s9, s10, s11, s12⟩ :=
    stepMid_spec dyn envp mp resp
  by_cases hd : (dyn.stepFn envp resp).2 = false
  · rw [if_pos hd] at hstep
    have hd3 := congrArg (fun p => p.2.2) hstep
    simp only at hd3
    rw [hd] at hd3
    cases hd3
  · rw [if_neg hd] at hstep
    have henv : (dyn.stepFn envp resp).1 = env' :=
      congrArg (fun p => p.1) hstep
    have hafter := congrArg (fun p => p.2.1) hstep
    simp only at hafter
    rcases hmlp : (stepMid dyn envp mp resp).last_player with _ | lp
    · rw [TextArenaGameMaster._after_game, hmlp] at hafter
      cases hafter
    · obtain ⟨m'', hm'', a1, a2, a3, a4, a5, a6, a7, a8, a9, a10, a11, a12⟩ :=
        after_game_spec dyn SinglePlayerMaster._on_after_game
          (dyn.stepFn envp resp).1 (stepMid dyn envp mp resp) lp hmlp
      rw [hm''] at hafter
      have hmm : m'' = m' := Option.some.inj hafter
      have hlp0 : lp = 0 := by
        have := a3
        rw [hmm, hlp, hmlp] at this
        exact (Option.some.inj this).symm
      rw [hlp0] at a12
      rw [henv] at a10 a12
      have hlog : m'.logged_keys =
          SinglePlayerMaster._on_after_game env' (dyn.closeFn env')
            (stepMid dyn envp mp resp).logged_keys := by
        rw [← hmm, a10]
      obtain ⟨hab, hlo⟩ := sp_hook_logged env' (dyn.closeFn env')
        (stepMid dyn envp mp resp).logged_keys hreward
      refine ⟨?_, ?_, ?_, ?_⟩
      · rw [hlog]
        exact hab
      · rw [hlog]
        exact hlo
      · rw [← hmm, a12 hinv]
        exact Nat.succ_le_succ (Nat.zero_le _)
      · rw [hclose, hclose0]

/-- A concrete terminating one-player session run with the single-player
hook, ending in an invalid final move. -/
def wPlay7 : Option (EnvState × ClemObservationWrapperState × MasterState) :=
  TextArenaGameMaster.play wDynTrue SinglePlayerMaster._on_after_game wAgents 1
    wEnv0 ClemObservationWrapper.init wMasterA

/-- The final environment state of `wPlay7`. -/
def wC7env : EnvState :=
  match wPlay7 with
  | some r => r.1
  | none => wEnv0

/-- The final wrapper state of `wPlay7`. -/
def wC7w : ClemObservationWrapperState :=
  match wPlay7 with
  | some r => r.2.1
  | none => ClemObservationWrapper.init

/-- The final master state of `wPlay7`. -/
def wC7m : MasterState :=
  match wPlay7 with
  | some r => r.2.2
  | none => initialMasterState

/-- Witness for C7: the concrete aborted single-player session logs
aborted = 1 and lose = 1, counts a violation and closes exactly once. -/
theorem single_player_abort_outcome_witness :
    wC7m.logged_keys METRIC_ABORTED = some 1 ∧
    wC7m.logged_keys METRIC_LOSE = some 1 ∧
    1 ≤ wC7m.violation_count ∧
    wC7m.close_count = 1 :=
  single_player_abort_outcome wDynTrue wAgents 1 wEnv0 wC7env
    ClemObservationWrapper.init wC7w wMasterA wC7m rfl rfl rfl rfl rfl

/-- C8: `TextArenaBenchmark.__init__` (which runs before any environment
`reset`) fails with an error when the player count is neither 1 nor 2 and no
explicit `master` (respectively `scorer`) is named in the game spec; with
player count 1 (respectively 2) and no explicit choice it selects the
single-player (respectively two-player) master and scorer. -/
theorem benchmark_master_scorer_selection (gs : GameSpecModel) :
    (gs.players ≠ 1 → gs.players ≠ 2 → gs.master = none →
      ∃ e, TextArenaBenchmark.construct gs = Except.error e) ∧
    (gs.players ≠ 1 → gs.players ≠ 2 → gs.scorer = none → gs.master ≠ none →
      ∃ e, TextArenaBenchmark.construct gs = Except.error e) ∧
    (gs.players = 1 → gs.master = none → gs.scorer = none →
      TextArenaBenchmark.construct gs =
        Except.ok ("SinglePlayerMaster", "SinglePlayerScorer")) ∧
    (gs.players = 2 → gs.master = none → gs.scorer = none →
      TextArenaBenchmark.construct gs =
        Except.ok ("TwoPlayerMaster", "TwoPlayerScorer")) := by
  refine ⟨?_, ?_, ?_, ?_⟩
  · intro h1 h2 hm
    have hcm : TextArenaBenchmark.chooseMaster gs = Except.error
        "Multi-player games require a specified master in the game spec." := by
      simp only [TextArenaBenchmark.chooseMaster, hm]
      rw [if_neg h1, if_neg h2]
    refine ⟨"Multi-player games require a specified master in the game spec.", ?_⟩
    simp only [TextArenaBenchmark.construct, hcm]
  · intro h1 h2 hs hm
    rcases hmo : gs.master with _ | mname
    · exact absurd hmo hm
    · have hcm : TextArenaBenchmark.chooseMaster gs = Except.ok mname := by
        simp only [TextArenaBenchmark.chooseMaster, hmo]
      have hcs : TextArenaBenchmark.chooseScorer gs = Except.error
          "Multi-player games require a specified scorer in the game spec." := by
        simp only [TextArenaBenchmark.chooseScorer, hs]
        rw [if_neg h1, if_neg h2]
      refine ⟨"Multi-player games require a specified scorer in the game spec.", ?_⟩
      simp only [TextArenaBenchmark.construct, hcm, hcs]
  · intro h1 hm hs
    have hcm : TextArenaBenchmark.chooseMaster gs =
        Except.ok "SinglePlayerMaster" := by
      simp only [TextArenaBenchmark.chooseMaster, hm]
      rw [if_pos h1]
    have hcs : TextArenaBenchmark.chooseScorer gs =
        Except.ok "SinglePlayerScorer" := by
      simp only [TextArenaBenchmark.chooseScorer, hs]
      rw [if_pos h1]
    simp only [TextArenaBenchmark.construct, hcm, hcs]
  · intro h2 hm hs
    have h1 : ¬ gs.players = 1 := by
      rw [h2]
      decide
    have hcm : TextArenaBenchmark.chooseMaster gs =
        Except.ok "TwoPlayerMaster" := by
      simp only [TextArenaBenchmark.chooseMaster, hm]
      rw [if_neg h1, if_pos h2]
    have hcs : TextArenaBenchmark.chooseScorer gs =
        Except.ok "TwoPlayerScorer" := by
      simp only [TextArenaBenchmark.chooseScorer, hs]
      rw [if_neg h1, if_pos h2]
    simp only [TextArenaBenchmark.construct, hcm, hcs]

/-- Witness for C8: with 3 players and no explicit names construction fails,
and with 1 player it selects the single-player master and scorer. -/
theorem benchmark_master_scorer_selection_witness :
    (∃ e, TextArenaBenchmark.construct ⟨3, none, none⟩ = Except.error e) ∧
    TextArenaBenchmark.construct ⟨1, none, none⟩ =
      Except.ok ("SinglePlayerMaster", "SinglePlayerScorer") :=
  ⟨(benchmark_master_scorer_selection ⟨3, none, none⟩).1 (by decide) (by decide)
      rfl,
   (benchmark_master_scorer_selection ⟨1, none, none⟩).2.2.1 rfl rfl rfl⟩

lemma step_last_player (dyn : EnvDyn)
    (hook : EnvState → Rewards → LogMap → LogMap)
    (env : EnvState) (m : MasterState) (response : String)
    (env' : EnvState) (m' : MasterState) (done : Bool)
    (hstep : TextArenaGameMaster.step dyn hook env m response =
      (env', some m', done)) :
    m'.last_player = m.last_player := by
  rw [step_eq] at hstep
  obtain ⟨s1, s2, s3, s4, s5, s6, s7, s8, s9, s10, s11, s12⟩ :=
    stepMid_spec dyn env m response
  by_cases hd : (dyn.stepFn env response).2 = false
  · rw [if_pos hd] at hstep
    have hm' := Option.some.inj (congrArg (fun p => p.2.1) hstep)
    obtain ⟨-, -, -, r4, -⟩ := round_branch_spec (stepMid dyn env m response)
    rw [← hm', r4, s2]
  · rw [if_neg hd] at hstep
    have hafter := congrArg (fun p => p.2.1) hstep
    simp only at hafter
    rcases hmlp : (stepMid dyn env m response).last_player with _ | lp
    · rw [TextArenaGameMaster._after_game, hmlp] at hafter
      cases hafter
    · obtain ⟨m'', hm'', -, -, a3, -, -, -, -, -, -, -, -, -⟩ :=
        after_game_spec dyn hook (dyn.stepFn env response).1
          (stepMid dyn env m response) lp hmlp
      rw [hm''] at hafter
      rw [← Option.some.inj hafter, a3, s2]

/-- C10: an agent is added to the round's acted-set and recorded as the last
actor at the moment it receives its context (`perceive_context`), before its
response is stepped into the environment: the play iteration steps the
environment from exactly the perceived state; since the acted-set is a set, a
re-observation of an agent already in the set leaves the set's size unchanged;
and if the episode ends on that agent's step, the final state still records
that agent as last actor. -/
theorem perceive_marks_before_step (dyn : EnvDyn)
    (hook : EnvState → Rewards → LogMap → LogMap)
    (agents : Int → String → String)
    (env : EnvState) (w : ClemObservationWrapperState) (m : MasterState) :
    (env.current_player_id ∈
        (TextArenaPlayer.perceive_context env.current_player_id m).played_in_round ∧
      (TextArenaPlayer.perceive_context env.current_player_id m).last_player =
        some env.current_player_id) ∧
    (TextArenaGameMaster.playStep dyn hook agents env w m =
      ((TextArenaGameMaster.step dyn hook env
          (TextArenaPlayer.perceive_context env.current_player_id m)
          (agents env.current_player_id
            (ClemObservationWrapper._convert_obs_to_context env w
              env.current_player_id).2)).1,
       (ClemObservationWrapper._convert_obs_to_context env w
         env.current_player_id).1,
       (TextArenaGameMaster.step dyn hook env
          (TextArenaPlayer.perceive_context env.current_player_id m)
          (agents env.current_player_id
            (ClemObservationWrapper._convert_obs_to_context env w
              env.current_player_id).2)).2.1,
       (TextArenaGameMaster.step dyn hook env
          (TextArenaPlayer.perceive_context env.current_player_id m)
          (agents env.current_player_id
            (ClemObservationWrapper._convert_obs_to_context env w
              env.current_player_id).2)).2.2)) ∧
    (env.current_player_id ∈ m.played_in_round →
      (TextArenaPlayer.perceive_context env.current_player_id m).played_in_round.card =
        m.played_in_round.card) ∧
    (∀ (env' : EnvState) (w' : ClemObservationWrapperState) (m' : MasterState),
      TextArenaGameMaster.playStep dyn hook agents env w m =
        (env', w', some m', true) →
      m'.last_player = some env.current_player_id) := by
  refine ⟨⟨Finset.mem_insert_self _ _, rfl⟩, rfl, ?_, ?_⟩
  · intro h
    show (insert env.current_player_id m.played_in_round).card =
      m.played_in_round.card
    rw [Finset.insert_eq_self.mpr h]
  · intro env' w' m' h
    have h1 := congrArg (fun p => p.1) h
    have h2 := congrArg (fun p => p.2.2.1) h
    have h3 := congrArg (fun p => p.2.2.2) h
    simp only at h1 h2 h3
    have hstepKeep : TextArenaGameMaster.step dyn hook env
        (TextArenaPlayer.perceive_context env.current_player_id m)
        (agents env.current_player_id
          (ClemObservationWrapper._convert_obs_to_context env w
            env.current_player_id).2) = (env', some m', true) := by
      rw [← h1, ← h2, ← h3]
      rfl
    rw [step_last_player dyn hook env
      (TextArenaPlayer.perceive_context env.current_player_id m) _ env' m'
      true hstepKeep]
    rfl

/-- Witness for C10: re-observing player 0, which already acted this round,
does not change the acted-set size. -/
theorem perceive_marks_before_step_witness :
    (TextArenaPlayer.perceive_context wEnv0.current_player_id
      wMasterB).played_in_round.card = wMasterB.played_in_round.card :=
  (perceive_marks_before_step wDynFalse wHook wAgents wEnv0
    ClemObservationWrapper.init wMasterB).2.2.1 (by decide)
